import Mathlib

/- Shallow embedding of libfprint fp-print.c: the print record data model,
the FP3 binary codec, the bz3 matcher, the equality comparator and the
minutiae encoder. The host is assumed little endian, so GINT32_TO_LE and
the two byteswap branches are identities. GLib containers are modelled by
values: the GPtrArray of xyt structs becomes a list, a GDate becomes its
Julian day number, and an arbitrary GVariant payload becomes an
uninterpreted value with decidable equality. -/

namespace Fprint

/-- Opaque GVariant value: a raw print payload is round tripped without
interpretation and compared with g_variant_equal (deep value equality), so
we model it as an uninterpreted byte list with decidable equality. -/
structure GVariantValue where
  bytes : List Nat
  deriving DecidableEq, Repr

/-- FpPrintType from fpi-print.h. Declaration order gives the integer codes
written by the codec: FP_PRINT_UNDEFINED = 0, FP_PRINT_RAW = 1,
FP_PRINT_NBIS = 2. -/
inductive FpPrintType where
  | undefined
  | raw
  | nbis
  deriving DecidableEq, Repr

/-- Integer code of a print type as stored in the serialized int32 field. -/
def FpPrintType.code : FpPrintType → Int
  | .undefined => 0
  | .raw => 1
  | .nbis => 2

/-- Mirror of struct xyt_struct from the vendored nbis bozorth.h: an int
row count and three fixed arrays of MAX_BOZORTH_MINUTIAE = 200 int32
entries (see the comment at line 620 of fp-print.c). The C field nrows is
an int that only ever holds counts in 0..200, so we use Nat. A well formed
value (XytStruct.wfb) has the three lists at length exactly 200. -/
structure XytStruct where
  nrows : Nat
  xcol : List Int
  ycol : List Int
  thetacol : List Int
  deriving DecidableEq, Repr

instance : Inhabited XytStruct := ⟨⟨0, [], [], []⟩⟩

/-- Well formedness of an xyt struct as every constructor in fp-print.c
produces it: the arrays have the fixed capacity 200, the significant count
is at most 200, and every slot beyond the count holds 0 (both allocation
sites use g_new0, which zeroes the storage before the first nrows entries
are filled). -/
def XytStruct.wfb (t : XytStruct) : Bool :=
  decide (t.nrows ≤ 200) &&
  decide (t.xcol.length = 200) &&
  decide (t.ycol.length = 200) &&
  decide (t.thetacol.length = 200) &&
  (t.xcol.drop t.nrows).all (· == 0) &&
  (t.ycol.drop t.nrows).all (· == 0) &&
  (t.thetacol.drop t.nrows).all (· == 0)

/-- Modelled from the spec: one minutia after the external coordinate
transform. lfs2nist_minutia_XYT and sround live in the vendored nbis
sources, which are not under src; spec section 4.1 delegates them to an
external coordinate transform primitive. They turn a minutia plus the
image size into the four columns of struct minutiae_struct: col0 and col1
are the transformed x and y, col2 is the transformed orientation angle in
degrees, col3 is the reliability quantized to an integer percentage. We
therefore take each minutia as that already transformed quadruple. -/
structure MinutiaCols where
  col0 : Int
  col1 : Int
  col2 : Int
  col3 : Int
  deriving DecidableEq, Repr

/-- FpImage as the minutiae encoder sees it: fp_image_get_minutiae yields
the detected minutia list, or none when detection has not run. The image
width and height only feed the external transform already folded into
MinutiaCols. -/
structure FpImage where
  minutiae : Option (List MinutiaCols)
  deriving DecidableEq, Repr

/-- Mirror of struct _FpPrint, the print record. A GDate is modelled by its
Julian day number (g_date_get_julian); every date reachable in this model
was made by g_date_new_julian or copied from a valid caller date, so it is
valid and its Julian day is positive and below 2^32. The prints GPtrArray
is NULL unless the type is nbis; no code path reads it for other types, so
it is modelled as a plain list that stays empty for other types. -/
structure FpPrint where
  type : FpPrintType
  driver : String
  device_id : String
  device_stored : Bool
  image : Option FpImage
  finger : Nat
  username : Option String
  description : Option String
  enroll_date : Option Nat
  data : Option GVariantValue
  prints : List XytStruct
  deriving DecidableEq, Repr

/-- Validly constructed record: a raw or nbis type, non empty driver and
device id strings, a finger holding an enum value that fits the serialized
byte, a valid date when one is present, the raw payload present exactly
for raw records, and well formed templates for nbis records. -/
def FpPrint.wfb (p : FpPrint) : Bool :=
  decide (p.driver ≠ "") &&
  decide (p.device_id ≠ "") &&
  decide (p.finger < 256) &&
  (match p.enroll_date with
   | some j => decide (0 < j) && decide (j < 4294967296)
   | none => true) &&
  (match p.type with
   | .raw => p.data.isSome && p.prints.isEmpty
   | .nbis => p.prints.all XytStruct.wfb
   | .undefined => false)

/-- Header bytes of the FP3 format, written at lines 952 to 954 of
fp-print.c and checked by memcmp at line 996. -/
def fp3magic : List Nat := [70, 80, 51]

/-- One per template sub record of the serialized nbis payload: the three
int32 arrays of GVariant type (aiaiai). -/
structure XytVariant where
  x : List Int
  y : List Int
  theta : List Int
  deriving DecidableEq, Repr

/-- Content of the trailing variant member of the FP3 tuple. The
serializer only ever produces the first two shapes: a tuple holding the
template array for nbis prints, or the raw payload wrapped once more by
g_variant_new_variant. A crafted buffer can place any variant there; the
shapes the serializer never emits lead outside the modelled envelope and
decode to DeserializeResult.unmodeled. -/
inductive PrintPayload where
  | nbis (prints : List XytVariant)
  | rawWrapped (value : GVariantValue)
  | otherVariant (value : GVariantValue)
  deriving DecidableEq, Repr

/-- Body of an FP3 buffer: the GVariant tuple of type (issbymsmsi a(sv) v)
in field order type code, driver, device id, device stored flag, finger
byte, maybe username, maybe description, enroll Julian day int32, reserved
extension map (always empty when written, ignored when read) and payload
variant. The typed parse plus g_variant_get_normal_form always yields a
value of this shape, so the body of any buffer is representable here. -/
structure FpBody where
  typeCode : Int
  driver : String
  device_id : String
  device_stored : Bool
  finger : Nat
  username : Option String
  description : Option String
  julian : Int
  reserved : List (String × GVariantValue)
  payload : PrintPayload
  deriving DecidableEq, Repr

/-- GError values raised in fp-print.c, tagged by domain and code and
carrying the message of the g_set_error call. The specification names the
io invalid data error InvalidFormat at decode time and InvalidData in the
minutiae encoder; both are the single code G_IO_ERROR_INVALID_DATA in the
code, distinguished only by message. -/
inductive GErr where
  | ioInvalidData (msg : String)
  | devNotSupported (msg : String)
  | devGeneral (msg : String)
  deriving DecidableEq, Repr

/-- Outcome of fp_print_serialize: TRUE with an output buffer (the three
magic bytes followed by the stored body), or a glib precondition violation
when g_variant_new_variant receives a NULL raw payload. The function has
no error returning path of its own. -/
inductive SerializeResult where
  | ok (body : FpBody)
  | precondViolation
  deriving DecidableEq, Repr

/-- Outcome of fp_print_deserialize. assertionFailure is the g_assert on
the buffer length at line 994, which aborts rather than set a GError.
unmodeled marks crafted payload shapes the serializer never emits, see
PrintPayload. -/
inductive DeserializeResult where
  | ok (p : FpPrint)
  | error (e : GErr)
  | assertionFailure
  | unmodeled
  deriving DecidableEq, Repr

/-- Julian day of a GDate as written by the codec: g_date_get_julian
yields a guint32, which the variant field of type i stores as an int32 by
two complement reinterpretation. -/
def gint32OfJulian (j : Nat) : Int :=
  if j % 4294967296 < 2147483648 then ((j % 4294967296 : Nat) : Int)
  else ((j % 4294967296 : Nat) : Int) - 4294967296

/-- Model of g_date_new_julian: its guint32 parameter reinterprets the
int32 argument modulo 2^32; Julian day 0 is the invalid day, for which the
g_return_val_if_fail guard yields NULL, and any other value yields a date
with exactly that Julian day. -/
def g_date_new_julian (j : Int) : Option Nat :=
  if (j % 4294967296).toNat = 0 then none else some (j % 4294967296).toNat

/-- Per template serialization (lines 892 to 925): the three fixed arrays
written with g_variant_new_fixed_array hold the first nrows entries of
each column; GINT32_TO_LE is the identity on the little endian host. -/
def serializeXyt (t : XytStruct) : XytVariant :=
  { x := t.xcol.take t.nrows
    y := t.ycol.take t.nrows
    theta := t.thetacol.take t.nrows }

/-- Date branch of the serializer at lines 876 to 879: the Julian day of
a present date (every date reachable in this model is valid, so the
g_date_valid test passes), and the G_MININT32 sentinel otherwise. -/
def serializeJulian (e : Option Nat) : Int :=
  match e with
  | some j => gint32OfJulian j
  | none => -2147483648

/-- Common fields of the serialized tuple, written by the builder in
order: type code, identity fields, metadata, the empty reserved map and
the payload variant. -/
def serBody (p : FpPrint) (payload : PrintPayload) : FpBody :=
  { typeCode := p.type.code
    driver := p.driver
    device_id := p.device_id
    device_stored := p.device_stored
    finger := p.finger % 256
    username := p.username
    description := p.description
    julian := serializeJulian p.enroll_date
    reserved := []
    payload := payload }

/-- fp_print_serialize (lines 854 to 960). For nbis prints the payload is
the template array; otherwise it is g_variant_new_variant of the raw data
field, whose glib precondition fails on a NULL payload. The big endian
byteswap branch is dead on the little endian host. -/
def fp_print_serialize (p : FpPrint) : SerializeResult :=
  match p.type with
  | .nbis => .ok (serBody p (.nbis (p.prints.map serializeXyt)))
  | _ =>
    match p.data with
    | none => .precondViolation
    | some d => .ok (serBody p (.rawWrapped d))

/-- Per sub record step of the decoding loop (lines 1048 to 1082): the
three array lengths must agree and fit the fixed capacity of 200 entries,
else the loop jumps to invalid_format; the rows are then copied into an
xyt struct zeroed by g_new0. -/
def decodeXyt (t : XytVariant) : Option XytStruct :=
  if t.x.length ≠ t.y.length ∨ t.x.length ≠ t.theta.length then none
  else if t.x.length > 200 then none
  else some
    { nrows := t.x.length
      xcol := t.x ++ List.replicate (200 - t.x.length) 0
      ycol := t.y ++ List.replicate (200 - t.x.length) 0
      thetacol := t.theta ++ List.replicate (200 - t.x.length) 0 }

/-- The whole decoding loop: all sub records must decode, and the first
bad one aborts the loop. -/
def decodeXyts (l : List XytVariant) : Option (List XytStruct) :=
  l.mapM decodeXyt

/-- Metadata reconstruction at lines 1102 to 1108: the stored byte becomes
the finger value uninterpreted, the maybe strings transfer as they are,
and the date comes from g_date_new_julian applied to the stored int32,
with no check of the G_MININT32 sentinel the serializer writes. -/
def applyMetadata (b : FpBody) (p : FpPrint) : FpPrint :=
  { p with
    finger := b.finger
    username := b.username
    description := b.description
    enroll_date := g_date_new_julian b.julian }

/-- Body interpretation of fp_print_deserialize after the header checks
(lines 1021 to 1112): type code 2 takes the nbis branch and decodes every
sub record, type code 1 takes the raw branch and unwraps the payload
variant, and any other code reaches the g_warning and invalid_format. -/
def deserializeBody (b : FpBody) : DeserializeResult :=
  if b.typeCode = FpPrintType.nbis.code then
    match b.payload with
    | .nbis printsVar =>
      match decodeXyts printsVar with
      | none => .error (.ioInvalidData "Data could not be parsed")
      | some xyts =>
        .ok (applyMetadata b
          { type := .nbis
            driver := b.driver
            device_id := b.device_id
            device_stored := b.device_stored
            image := none
            finger := 0
            username := none
            description := none
            enroll_date := none
            data := none
            prints := xyts })
    | _ => .unmodeled
  else if b.typeCode = FpPrintType.raw.code then
    match b.payload with
    | .rawWrapped d =>
      .ok (applyMetadata b
        { type := .raw
          driver := b.driver
          device_id := b.device_id
          device_stored := b.device_stored
          image := none
          finger := 0
          username := none
          description := none
          enroll_date := none
          data := some d
          prints := [] })
    | _ => .unmodeled
  else .error (.ioInvalidData "Data could not be parsed")

/-- fp_print_deserialize (lines 972 to 1119). bytes is the raw input
buffer and body is the GVariant value that g_variant_new_from_data reads
from the bytes after the 3 byte header; the typed parse followed by
g_variant_get_normal_form always yields a value of the tuple type, so the
body is carried alongside the bytes as a second view of the same input and
is ignored whenever the length assertion or the magic check fires first. -/
def fp_print_deserialize (bytes : List Nat) (body : FpBody) : DeserializeResult :=
  if bytes.length ≤ 3 then .assertionFailure
  else if bytes.take 3 ≠ fp3magic then .error (.ioInvalidData "Data could not be parsed")
  else deserializeBody body

/-- fp_print_equal (lines 793 to 836). The two g_return_val_if_fail guards
on an undefined type return FALSE. For nbis records the loop compares each
pair of xyt structs with memcmp over the whole struct, that is the count
field plus all 200 slots of each column; the struct holds only int fields,
so memcmp equality is structural equality. For raw records g_variant_equal
is deep value equality, and its own guard yields FALSE when a payload is
NULL. -/
def fp_print_equal (a b : FpPrint) : Bool :=
  if a.type = .undefined ∨ b.type = .undefined then false
  else if a.type ≠ b.type then false
  else if a.driver ≠ b.driver then false
  else if a.device_id ≠ b.device_id then false
  else match a.type with
    | .raw =>
      match a.data, b.data with
      | some x, some y => x == y
      | _, _ => false
    | .nbis =>
      decide (a.prints.length = b.prints.length) &&
      (a.prints.zip b.prints).all fun q => q.1 == q.2
    | .undefined => false

/-- Result type FpiMatchResult of the matcher. -/
inductive FpiMatchResult where
  | success
  | fail
  | error (e : GErr)
  deriving DecidableEq, Repr

/-- Gallery loop of fpi_print_bz3_match (lines 744 to 756): the first
template whose score reaches the threshold yields FPI_MATCH_SUCCESS, and
an exhausted gallery yields FPI_MATCH_FAIL. -/
def bz3Loop (score : XytStruct → Int) : List XytStruct → Int → FpiMatchResult
  | [], _ => .fail
  | g :: rest, thr => if thr ≤ score g then .success else bz3Loop score rest thr

/-- fpi_print_bz3_match (lines 719 to 757). bozorth_probe_init and
bozorth_to_gallery are the external nbis scoring primitive, which spec
section 4.3 treats as a black box, so they are parameters here: probeInit
gives the probe length and toGallery scores one gallery template against
the probe. -/
def fpi_print_bz3_match (probeInit : XytStruct → Int)
    (toGallery : Int → XytStruct → XytStruct → Int)
    (template probe : FpPrint) (threshold : Int) : FpiMatchResult :=
  if template.type ≠ .nbis ∨ probe.type ≠ .nbis then
    .error (.devNotSupported "It is only possible to match NBIS type print data")
  else if probe.prints.length ≠ 1 then
    .error (.devGeneral "New print contains more than one print!")
  else
    let pstruct := probe.prints.headI
    let probeLen := probeInit pstruct
    bz3Loop (fun g => toGallery probeLen pstruct g) template.prints threshold

/-- Theta normalization at lines 631 to 632 of minutiae_to_xyt: an angle
above 180 degrees has 360 subtracted. -/
def normTheta (t : Int) : Int := if t > 180 then t - 360 else t

/-- Normalization of one transformed minutia: only the angle column
changes. -/
def normPoint (m : MinutiaCols) : MinutiaCols := { m with col2 := normTheta m.col2 }

/-- Modelled from the spec: sort_x_y lives in the vendored nbis sources,
not under src; per spec section 4.1 it orders minutiae by ascending x with
ties by ascending y, as a stable deterministic total order, so the qsort
call is modelled by a stable merge sort under that comparator. -/
def sortXY (l : List MinutiaCols) : List MinutiaCols :=
  l.mergeSort fun a b =>
    decide (a.col0 < b.col0) || (a.col0 == b.col0 && decide (a.col1 ≤ b.col1))

/-- minutiae_to_xyt (lines 610 to 645): cap the list at
MAX_BOZORTH_MINUTIAE = 200 entries, transform each retained minutia (the
external transform is folded into MinutiaCols), normalize each
orientation, sort, then write the sorted columns into the xyt struct
zeroed by the caller and set the row count to the retained length. -/
def minutiae_to_xyt (l : List MinutiaCols) : XytStruct :=
  let nmin := min l.length 200
  let c := (l.take nmin).map normPoint
  let sorted := sortXY c
  { nrows := nmin
    xcol := sorted.map (fun m => m.col0) ++ List.replicate (200 - nmin) 0
    ycol := sorted.map (fun m => m.col1) ++ List.replicate (200 - nmin) 0
    thetacol := sorted.map (fun m => m.col2) ++ List.replicate (200 - nmin) 0 }

/-- fpi_print_add_from_image (lines 661 to 702): a record of the wrong
type or a missing image fails with invalid data, an absent or empty
minutia list fails with invalid data, and otherwise the encoded template
is appended to the print and the image is retained on the record. -/
def fpi_print_add_from_image (p : FpPrint) (image : Option FpImage) :
    Except GErr FpPrint :=
  if p.type ≠ .nbis ∨ image.isNone then
    .error (.ioInvalidData "Cannot add print data from image!")
  else
    match image with
    | none => .error (.ioInvalidData "Cannot add print data from image!")
    | some img =>
      match img.minutiae with
      | none =>
        .error (.ioInvalidData "No minutiae found in image or not yet detected!")
      | some l =>
        if l.length = 0 then
          .error (.ioInvalidData "No minutiae found in image or not yet detected!")
        else
          .ok { p with prints := p.prints ++ [minutiae_to_xyt l], image := some img }

/-- PROP_FPI_DATA branch of fp_print_set_property (lines 208 to 211): the
g_clear_pointer call there names the description field, so storing the raw
data property also clears the description; the new variant value is then
stored into the data field. -/
def fp_print_set_fpi_data (p : FpPrint) (v : Option GVariantValue) : FpPrint :=
  { p with description := none, data := v }

/-- Bundle of the four mutable metadata setters fp_print_set_finger,
fp_print_set_username, fp_print_set_description and
fp_print_set_enroll_date, used to state that metadata never influences
equality. -/
def setMetadata (p : FpPrint) (fi : Nat) (u d : Option String) (e : Option Nat) :
    FpPrint :=
  { p with finger := fi, username := u, description := d, enroll_date := e }

/-- Sub record of a template set payload that the decoder must reject:
mismatched array lengths or an array beyond the fixed capacity. -/
def badXytVariant (t : XytVariant) : Prop :=
  t.x.length ≠ t.y.length ∨ t.x.length ≠ t.theta.length ∨ t.x.length > 200

instance (t : XytVariant) : Decidable (badXytVariant t) := by
  unfold badXytVariant
  infer_instance

/-- The modelled sort only reorders its input. -/
theorem sortXY_perm (l : List MinutiaCols) : List.Perm (sortXY l) l :=
  List.mergeSort_perm l _

/-- A capacity array whose tail beyond the count is zero is recovered from
its significant prefix by zero padding. -/
theorem take_append_replicate (l : List Int) (n : Nat) (hlen : l.length = 200)
    (hn : n ≤ 200) (hz : ∀ v ∈ l.drop n, v = 0) :
    l.take n ++ List.replicate (200 - n) 0 = l := by
  have hdrop : l.drop n = List.replicate (200 - n) 0 := by
    rw [List.eq_replicate_iff]
    exact ⟨by simp [hlen], hz⟩
  calc l.take n ++ List.replicate (200 - n) 0
      = l.take n ++ l.drop n := by rw [hdrop]
    _ = l := List.take_append_drop n l

/-- Decoding inverts per template serialization on well formed templates. -/
theorem decodeXyt_serializeXyt (t : XytStruct) (h : t.wfb = true) :
    decodeXyt (serializeXyt t) = some t := by
  simp only [XytStruct.wfb, Bool.and_eq_true, decide_eq_true_eq, List.all_eq_true,
    beq_iff_eq] at h
  obtain ⟨⟨⟨⟨⟨⟨hn, hx⟩, hy⟩, ht⟩, hxz⟩, hyz⟩, htz⟩ := h
  have hxt : (t.xcol.take t.nrows).length = t.nrows := by
    rw [List.length_take]; omega
  have hyt : (t.ycol.take t.nrows).length = t.nrows := by
    rw [List.length_take]; omega
  have htt : (t.thetacol.take t.nrows).length = t.nrows := by
    rw [List.length_take]; omega
  unfold decodeXyt serializeXyt
  simp only [hxt, hyt, htt]
  rw [if_neg (by omega), if_neg (by omega)]
  have ex := take_append_replicate t.xcol t.nrows hx hn hxz
  have ey := take_append_replicate t.ycol t.nrows hy hn hyz
  have et := take_append_replicate t.thetacol t.nrows ht hn htz
  rw [Option.some.injEq]
  cases t
  simp_all

/-- Decoding inverts the whole template loop on well formed templates. -/
theorem decodeXyts_map_serialize (l : List XytStruct) (h : ∀ t ∈ l, t.wfb = true) :
    decodeXyts (l.map serializeXyt) = some l := by
  induction l with
  | nil => rfl
  | cons t rest ih =>
    have ht := h t (by simp)
    have hrest := ih fun x hx => h x (by simp [hx])
    simp only [decodeXyts, List.map_cons, List.mapM_cons,
      decodeXyt_serializeXyt t ht, Option.bind_eq_bind, Option.some_bind]
    simp only [decodeXyts] at hrest
    rw [hrest]
    rfl

/-- A bad sub record fails the per record checks. -/
theorem decodeXyt_eq_none_of_bad (t : XytVariant) (h : badXytVariant t) :
    decodeXyt t = none := by
  unfold decodeXyt badXytVariant at *
  rcases h with h | h | h
  · rw [if_pos (Or.inl h)]
  · rw [if_pos (Or.inr h)]
  · by_cases hm : t.x.length ≠ t.y.length ∨ t.x.length ≠ t.theta.length
    · rw [if_pos hm]
    · rw [if_neg hm, if_pos h]

/-- The decoding loop fails as soon as some sub record is bad. -/
theorem decodeXyts_eq_none (l : List XytVariant) (h : ∃ t ∈ l, badXytVariant t) :
    decodeXyts l = none := by
  induction l with
  | nil => simp at h
  | cons t rest ih =>
    obtain ⟨u, hu, hbad⟩ := h
    simp only [List.mem_cons] at hu
    cases hu with
    | inl heq =>
      subst heq
      simp only [decodeXyts, List.mapM_cons, decodeXyt_eq_none_of_bad u hbad,
        Option.bind_eq_bind, Option.none_bind]
    | inr hmem =>
      have hrest := ih ⟨u, hmem, hbad⟩
      simp only [decodeXyts] at hrest ⊢
      rw [List.mapM_cons, hrest]
      cases decodeXyt t <;> rfl

/-- Serialized then reread Julian days are preserved for valid dates. -/
theorem g_date_new_julian_roundtrip (j : Nat) (h0 : 0 < j) (h1 : j < 4294967296) :
    g_date_new_julian (gint32OfJulian j) = some j := by
  unfold g_date_new_julian gint32OfJulian
  rw [Nat.mod_eq_of_lt h1]
  by_cases hc : j < 2147483648
  · rw [if_pos hc, if_neg (by omega), Option.some.injEq]
    omega
  · rw [if_neg hc, if_neg (by omega), Option.some.injEq]
    omega

/-- The G_MININT32 sentinel does not read back as an unset date: the
guint32 parameter of g_date_new_julian reinterprets it as day 2^31. -/
theorem g_date_new_julian_sentinel :
    g_date_new_julian (-2147483648) = some 2147483648 := by decide

/-- The date field written by the serializer reads back as the same date
when one is present, and as the bogus day 2^31 when none was. -/
theorem g_date_roundtrip (e : Option Nat)
    (h : (match e with
          | some j => decide (0 < j) && decide (j < 4294967296)
          | none => true) = true) :
    g_date_new_julian (serializeJulian e) = some (e.getD 2147483648) := by
  cases e with
  | none => exact g_date_new_julian_sentinel
  | some j =>
    simp only [Bool.and_eq_true, decide_eq_true_eq] at h
    exact g_date_new_julian_roundtrip j h.1 h.2

/-- The gallery loop succeeds exactly when some gallery template reaches
the threshold. -/
theorem bz3Loop_success_iff (score : XytStruct → Int) (l : List XytStruct) (thr : Int) :
    bz3Loop score l thr = .success ↔ ∃ g ∈ l, thr ≤ score g := by
  induction l with
  | nil => simp [bz3Loop]
  | cons g rest ih =>
    simp only [bz3Loop]
    by_cases hg : thr ≤ score g
    · simp [hg]
    · simp [hg, ih]

/-- The gallery loop fails exactly when no gallery template reaches the
threshold. -/
theorem bz3Loop_fail_iff (score : XytStruct → Int) (l : List XytStruct) (thr : Int) :
    bz3Loop score l thr = .fail ↔ ∀ g ∈ l, score g < thr := by
  induction l with
  | nil => simp [bz3Loop]
  | cons g rest ih =>
    simp only [bz3Loop]
    by_cases hg : thr ≤ score g
    · simp only [if_pos hg]
      constructor
      · intro h; exact absurd h (by simp)
      · intro h; exact absurd (h g (by simp)) (by omega)
    · simp only [if_neg hg, ih]
      constructor
      · intro h x hx
        rcases List.mem_cons.mp hx with rfl | hx
        · omega
        · exact h x hx
      · intro h x hx
        exact h x (List.mem_cons_of_mem _ hx)

/-- The gallery loop never reports a match error. -/
theorem bz3Loop_ne_error (score : XytStruct → Int) (l : List XytStruct) (thr : Int)
    (e : GErr) : bz3Loop score l thr ≠ .error e := by
  induction l with
  | nil => simp [bz3Loop]
  | cons g rest ih =>
    simp only [bz3Loop]
    by_cases hg : thr ≤ score g
    · simp [hg]
    · simp [hg, ih]

/-- The zip of a list with itself passes the pairwise comparison. -/
theorem zip_self_all {α : Type} [DecidableEq α] (l : List α) :
    ((l.zip l).all fun q => q.1 == q.2) = true := by
  induction l with
  | nil => rfl
  | cons a t ih => simp [List.zip_cons_cons, ih]

/-- The length guard plus the pairwise memcmp loop amount to equality of
the two template lists. -/
theorem zip_length_all_iff {α : Type} [DecidableEq α] (l1 l2 : List α) :
    (decide (l1.length = l2.length) &&
      (l1.zip l2).all fun q => q.1 == q.2) = true ↔ l1 = l2 := by
  induction l1 generalizing l2 with
  | nil => cases l2 <;> simp
  | cons a t ih =>
    cases l2 with
    | nil => simp
    | cons b u =>
      simp only [List.zip_cons_cons, List.all_cons, List.length_cons, beq_iff_eq,
        Bool.and_eq_true, decide_eq_true_eq, List.cons.injEq]
      constructor
      · rintro ⟨hlen, hab, hall⟩
        refine ⟨hab, (ih u).mp ?_⟩
        simp only [Bool.and_eq_true, decide_eq_true_eq]
        exact ⟨by omega, hall⟩
      · rintro ⟨hab, htu⟩
        have := (ih u).mpr htu
        simp only [Bool.and_eq_true, decide_eq_true_eq] at this
        exact ⟨by omega, hab, this.2⟩

/-- Equality of two template set records reduces to identity of driver,
device id and template sequences. -/
theorem equal_nbis_iff (a b : FpPrint) (ha : a.type = .nbis) (hb : b.type = .nbis) :
    fp_print_equal a b = true ↔
      a.driver = b.driver ∧ a.device_id = b.device_id ∧ a.prints = b.prints := by
  unfold fp_print_equal
  rw [ha, hb]
  rw [if_neg (by simp), if_neg (by simp)]
  by_cases hd : a.driver = b.driver
  · rw [if_neg (by simp [hd])]
    by_cases hi : a.device_id = b.device_id
    · rw [if_neg (by simp [hi])]
      constructor
      · intro h
        exact ⟨hd, hi, (zip_length_all_iff a.prints b.prints).mp h⟩
      · rintro ⟨-, -, hp⟩
        exact (zip_length_all_iff a.prints b.prints).mpr hp
    · rw [if_pos hi]
      simp [hi]
  · rw [if_pos hd]
    simp [hd]

/-- Metadata mutation on either side never changes the equality verdict. -/
theorem equal_ignores_metadata (a b : FpPrint) (fa : Nat) (ua da : Option String)
    (ea : Option Nat) (fb : Nat) (ub db : Option String) (eb : Option Nat) :
    fp_print_equal (setMetadata a fa ua da ea) (setMetadata b fb ub db eb) =
      fp_print_equal a b := rfl

/-- Core round trip fact: serializing a well formed record and reading the
body back yields a record that the comparator judges equal, with every
metadata field preserved except that an unset enroll date reads back as
the bogus Julian day 2^31 (the missing sentinel check in the decoder). -/
theorem serialize_deserialize (p : FpPrint) (hwf : p.wfb = true) :
    ∃ body q, fp_print_serialize p = .ok body ∧
      deserializeBody body = .ok q ∧
      fp_print_equal p q = true ∧
      q.finger = p.finger ∧ q.username = p.username ∧ q.description = p.description ∧
      q.enroll_date = some (p.enroll_date.getD 2147483648) := by
  unfold FpPrint.wfb at hwf
  simp only [Bool.and_eq_true, decide_eq_true_eq] at hwf
  obtain ⟨⟨⟨⟨hdrv, hdev⟩, hfing⟩, hdate⟩, hty⟩ := hwf
  have hfin : p.finger % 256 = p.finger := Nat.mod_eq_of_lt hfing
  have hdd := g_date_roundtrip p.enroll_date hdate
  cases hp : p.type with
  | undefined => rw [hp] at hty; simp at hty
  | raw =>
    rw [hp] at hty
    simp only [Bool.and_eq_true] at hty
    obtain ⟨hds, hpe⟩ := hty
    obtain ⟨d, hd⟩ := Option.isSome_iff_exists.mp hds
    refine ⟨serBody p (.rawWrapped d),
      applyMetadata (serBody p (.rawWrapped d))
        { type := .raw, driver := p.driver, device_id := p.device_id,
          device_stored := p.device_stored, image := none, finger := 0,
          username := none, description := none, enroll_date := none,
          data := some d, prints := [] }, ?_, ?_, ?_, ?_, ?_, ?_, ?_⟩
    · simp [fp_print_serialize, hp, hd]
    · simp [deserializeBody, serBody, hp, FpPrintType.code]
    · simp [fp_print_equal, applyMetadata, serBody, hp, hd]
    · simp [applyMetadata, serBody, hfin]
    · simp [applyMetadata, serBody]
    · simp [applyMetadata, serBody]
    · simp only [applyMetadata, serBody]
      exact hdd
  | nbis =>
    rw [hp] at hty
    simp only [List.all_eq_true] at hty
    have hdec := decodeXyts_map_serialize p.prints hty
    refine ⟨serBody p (.nbis (p.prints.map serializeXyt)),
      applyMetadata (serBody p (.nbis (p.prints.map serializeXyt)))
        { type := .nbis, driver := p.driver, device_id := p.device_id,
          device_stored := p.device_stored, image := none, finger := 0,
          username := none, description := none, enroll_date := none,
          data := none, prints := p.prints }, ?_, ?_, ?_, ?_, ?_, ?_, ?_⟩
    · simp [fp_print_serialize, hp]
    · simp [deserializeBody, serBody, hp, FpPrintType.code, hdec]
    · simp [fp_print_equal, applyMetadata, serBody, hp, zip_self_all]
    · simp [applyMetadata, serBody, hfin]
    · simp [applyMetadata, serBody]
    · simp [applyMetadata, serBody]
    · simp only [applyMetadata, serBody]
      exact hdd

/-- Record used to refute the round trip claim: validly constructed (raw
kind, non empty driver and device id, payload present) but saved without
an enroll date. -/
def c1Record : FpPrint :=
  { type := .raw, driver := "virtual_image", device_id := "0",
    device_stored := false, image := none, finger := 1,
    username := some "user", description := some "left index",
    enroll_date := none, data := some ⟨[1, 2, 3]⟩, prints := [] }

/-- Expected serialized body of c1Record: the Julian field carries the
G_MININT32 sentinel because no enroll date is set. -/
def c1Body : FpBody :=
  { typeCode := 1, driver := "virtual_image", device_id := "0",
    device_stored := false, finger := 1, username := some "user",
    description := some "left index", julian := -2147483648, reserved := [],
    payload := .rawWrapped ⟨[1, 2, 3]⟩ }

/-- Record that deserializing the serialized form of c1Record produces:
identical except that the enroll date is now set to Julian day 2^31. -/
def c1Decoded : FpPrint :=
  { type := .raw, driver := "virtual_image", device_id := "0",
    device_stored := false, image := none, finger := 1,
    username := some "user", description := some "left index",
    enroll_date := some 2147483648, data := some ⟨[1, 2, 3]⟩, prints := [] }

/-- C1 counterexample: deserializing the serialized form of the validly
constructed record c1Record (raw kind, non empty driver and device id, no
enroll date) succeeds but yields a record whose enroll date is set to
Julian day 2147483648 instead of staying unset, so the metadata
preservation part of the round trip claim fails as stated. -/
theorem c1_roundtrip_counterexample :
    c1Record.wfb = true ∧ c1Record.enroll_date = none ∧
    fp_print_serialize c1Record = .ok c1Body ∧
    fp_print_deserialize (fp3magic ++ [0, 0, 0, 0]) c1Body = .ok c1Decoded ∧
    c1Decoded.enroll_date = some 2147483648 := by
  refine ⟨by decide, rfl, by decide, by decide, rfl⟩

/-- C1 (amended): for every validly constructed record that also carries
an enroll date, deserializing the serialized buffer succeeds, the result
is equal to the original under the equality comparator, and the finger,
username, description and enroll date metadata are preserved exactly. The
buffer is the three magic bytes followed by the variant store of the body
(nonempty, since the body starts with a four byte int32). Records without
an enroll date are excluded: for them the decoded enroll date is the bogus
Julian day 2^31, see the counterexample. -/
theorem c1_roundtrip_amended (p : FpPrint) (rest : List Nat)
    (hwf : p.wfb = true) (hdate : p.enroll_date.isSome = true) (hrest : rest ≠ []) :
    ∃ body q, fp_print_serialize p = .ok body ∧
      fp_print_deserialize (fp3magic ++ rest) body = .ok q ∧
      fp_print_equal p q = true ∧
      q.finger = p.finger ∧ q.username = p.username ∧
      q.description = p.description ∧ q.enroll_date = p.enroll_date := by
  obtain ⟨body, q, h1, h2, h3, h4, h5, h6, h7⟩ := serialize_deserialize p hwf
  refine ⟨body, q, h1, ?_, h3, h4, h5, h6, ?_⟩
  · unfold fp_print_deserialize
    rw [if_neg, if_neg]
    · exact h2
    · simp [fp3magic]
    · simp only [fp3magic, List.length_append, List.length_cons, List.length_nil]
      have hlen : rest.length ≠ 0 := fun h => hrest (List.length_eq_zero.mp h)
      omega
  · obtain ⟨j, hj⟩ := Option.isSome_iff_exists.mp hdate
    rw [h7, hj]
    rfl

/-- Record witnessing the amended round trip: c1Record with an enroll
date set. -/
def c1DatedRecord : FpPrint := { c1Record with enroll_date := some 2459000 }

/-- C1 witness: the amended round trip theorem applied to the concrete
dated record. -/
theorem c1_roundtrip_amended_witness :
    ∃ body q, fp_print_serialize c1DatedRecord = .ok body ∧
      fp_print_deserialize (fp3magic ++ [7]) body = .ok q ∧
      fp_print_equal c1DatedRecord q = true ∧
      q.finger = c1DatedRecord.finger ∧ q.username = c1DatedRecord.username ∧
      q.description = c1DatedRecord.description ∧
      q.enroll_date = c1DatedRecord.enroll_date :=
  c1_roundtrip_amended c1DatedRecord [7] (by decide) (by decide) (by decide)

/-- Benign raw kind body used to exercise the header checks: the body is
irrelevant whenever the length assertion or magic check fires. -/
def emptyBody : FpBody :=
  { typeCode := 1, driver := "", device_id := "", device_stored := false,
    finger := 0, username := none, description := none, julian := 0,
    reserved := [], payload := .rawWrapped ⟨[]⟩ }

/-- C2 counterexample: a buffer holding exactly the three magic bytes is
shorter than 4 bytes; the claim requires the InvalidFormat error there,
but the g_assert on the length aborts instead, so no error is returned at
all. -/
theorem c2_short_buffer_counterexample :
    fp3magic.length < 4 ∧
    fp_print_deserialize fp3magic emptyBody = .assertionFailure ∧
    ∀ m, fp_print_deserialize fp3magic emptyBody ≠ .error (.ioInvalidData m) := by
  refine ⟨by decide, by decide, ?_⟩
  intro m h
  rw [show fp_print_deserialize fp3magic emptyBody = .assertionFailure from by decide] at h
  exact DeserializeResult.noConfusion h

/-- C2 (amended): a buffer of at most 3 bytes trips the length assertion
(an abort, not an error return); with sufficient length, a wrong magic
yields the invalid format error; with good magic, a template set payload
holding a sub record whose three arrays mismatch in length or exceed 200
entries yields the invalid format error; and in the error cases no record
is returned, since the error constructor carries none. -/
theorem c2_deserialize_rejects (bytes : List Nat) (body : FpBody) :
    (bytes.length ≤ 3 → fp_print_deserialize bytes body = .assertionFailure) ∧
    (3 < bytes.length → bytes.take 3 ≠ fp3magic →
      fp_print_deserialize bytes body =
        .error (.ioInvalidData "Data could not be parsed")) ∧
    (∀ ts, 3 < bytes.length → bytes.take 3 = fp3magic →
      body.typeCode = 2 → body.payload = .nbis ts →
      (∃ t ∈ ts, badXytVariant t) →
      fp_print_deserialize bytes body =
        .error (.ioInvalidData "Data could not be parsed")) := by
  refine ⟨?_, ?_, ?_⟩
  · intro h
    unfold fp_print_deserialize
    rw [if_pos h]
  · intro h1 h2
    unfold fp_print_deserialize
    rw [if_neg (by omega), if_pos h2]
  · intro ts h1 h2 hty hpl hbad
    have hnone := decodeXyts_eq_none ts hbad
    unfold fp_print_deserialize deserializeBody
    rw [if_neg (by omega), if_neg (by simp [h2]), hty, hpl]
    simp [hnone, FpPrintType.code]

/-- Body with a template set payload whose single sub record has
mismatched array lengths. -/
def badNbisBody : FpBody :=
  { emptyBody with typeCode := 2, payload := .nbis [⟨[1], [], []⟩] }

/-- Body behind a wrong magic buffer in the C2 witness. -/
def anyBody : FpBody := emptyBody

/-- C2 witness: the three rejection branches applied at concrete inputs: a
2 byte buffer, a 4 byte buffer with wrong magic, and a good header over a
template set payload with a mismatched sub record. -/
theorem c2_deserialize_rejects_witness :
    fp_print_deserialize [70, 80] emptyBody = .assertionFailure ∧
    fp_print_deserialize [0, 1, 2, 3] anyBody =
      .error (.ioInvalidData "Data could not be parsed") ∧
    fp_print_deserialize (fp3magic ++ [0]) badNbisBody =
      .error (.ioInvalidData "Data could not be parsed") :=
  ⟨(c2_deserialize_rejects [70, 80] emptyBody).1 (by decide),
   (c2_deserialize_rejects [0, 1, 2, 3] anyBody).2.1 (by decide) (by decide),
   (c2_deserialize_rejects (fp3magic ++ [0]) badNbisBody).2.2 [⟨[1], [], []⟩]
     (by decide) (by decide) (by decide) (by decide)
     ⟨⟨[1], [], []⟩, by decide, by decide⟩⟩

/-- Undefined kind record still carrying a stored raw payload. -/
def undefRecordWithData : FpPrint :=
  { type := .undefined, driver := "d", device_id := "i", device_stored := false,
    image := none, finger := 0, username := none, description := none,
    enroll_date := none, data := some ⟨[9]⟩, prints := [] }

/-- Undefined kind record with no payload. -/
def undefRecordNoData : FpPrint := { undefRecordWithData with data := none }

/-- Well formed raw record for the C3 witness. -/
def c3WfRecord : FpPrint := { undefRecordWithData with type := .raw }

/-- C3 counterexample: serializing a record of undefined kind that holds a
raw payload succeeds (writing type code 0), so fp_print_serialize does not
fail with InvalidState on undefined records; the function has no
InvalidState path at all. -/
theorem c3_serialize_counterexample :
    undefRecordWithData.type = .undefined ∧
    fp_print_serialize undefRecordWithData =
      .ok (serBody undefRecordWithData (.rawWrapped ⟨[9]⟩)) ∧
    (serBody undefRecordWithData (.rawWrapped ⟨[9]⟩)).typeCode = 0 := by
  refine ⟨rfl, by decide, by decide⟩

/-- C3 (amended): serialization returns TRUE for every well formed raw or
template set record; on an undefined record it never reports an
InvalidState error, because no such path exists: with a raw payload
present it succeeds, writing type code 0, and with none it runs into the
glib precondition of g_variant_new_variant. -/
theorem c3_serialize_outcomes (p : FpPrint) :
    (p.wfb = true → ∃ body, fp_print_serialize p = .ok body) ∧
    (p.type = .undefined → ∀ d, p.data = some d →
      fp_print_serialize p = .ok (serBody p (.rawWrapped d))) ∧
    (p.type = .undefined → p.data = none →
      fp_print_serialize p = .precondViolation) := by
  refine ⟨?_, ?_, ?_⟩
  · intro hwf
    obtain ⟨body, q, h1, -⟩ := serialize_deserialize p hwf
    exact ⟨body, h1⟩
  · intro hty d hd
    unfold fp_print_serialize
    rw [hty, hd]
  · intro hty hd
    unfold fp_print_serialize
    rw [hty, hd]

/-- C3 witness: the three serialization outcomes at concrete records: a
well formed raw record, the undefined record with a payload, and the
undefined record without one. -/
theorem c3_serialize_outcomes_witness :
    (∃ body, fp_print_serialize c3WfRecord = .ok body) ∧
    fp_print_serialize undefRecordWithData =
      .ok (serBody undefRecordWithData (.rawWrapped ⟨[9]⟩)) ∧
    fp_print_serialize undefRecordNoData = .precondViolation :=
  ⟨(c3_serialize_outcomes c3WfRecord).1 (by decide),
   (c3_serialize_outcomes undefRecordWithData).2.1 rfl ⟨[9]⟩ rfl,
   (c3_serialize_outcomes undefRecordNoData).2.2 rfl rfl⟩

/-- Body as stored for a print saved without an enroll date: the Julian
field holds the G_MININT32 sentinel written by the serializer. -/
def sentinelBody : FpBody := { emptyBody with julian := -2147483648 }

/-- C4 (code bug): the decoder feeds the stored int32 Julian field to
g_date_new_julian without checking the G_MININT32 sentinel; the guint32
parameter of g_date_new_julian reinterprets the sentinel as Julian day
2147483648, so the decoded record carries a bogus set enroll date where
the claim, and the sentinel convention of the serializer at lines 876 to
879, require an unset one. -/
theorem c4_sentinel_read_back_set :
    g_date_new_julian (-2147483648) = some 2147483648 ∧
    fp_print_deserialize (fp3magic ++ [0]) sentinelBody =
      .ok { type := .raw, driver := "", device_id := "", device_stored := false,
            image := none, finger := 0, username := none, description := none,
            enroll_date := some 2147483648, data := some ⟨[]⟩, prints := [] } := by
  refine ⟨by decide, by decide⟩

/-- C5: with both records of template set kind and a probe holding exactly
one template, matching returns success exactly when some gallery template,
scanned in storage order with a stop at the first hit, scores at least the
threshold, and returns fail exactly when no gallery template reaches it. -/
theorem c5_bz3_match_threshold (probeInit : XytStruct → Int)
    (toGallery : Int → XytStruct → XytStruct → Int)
    (template probe : FpPrint) (thr : Int)
    (ht : template.type = .nbis) (hp : probe.type = .nbis)
    (h1 : probe.prints.length = 1) :
    (fpi_print_bz3_match probeInit toGallery template probe thr = .success ↔
      ∃ g ∈ template.prints,
        thr ≤ toGallery (probeInit probe.prints.headI) probe.prints.headI g) ∧
    (fpi_print_bz3_match probeInit toGallery template probe thr = .fail ↔
      ∀ g ∈ template.prints,
        toGallery (probeInit probe.prints.headI) probe.prints.headI g < thr) := by
  unfold fpi_print_bz3_match
  rw [if_neg (by simp [ht, hp]), if_neg (by simp [h1])]
  exact ⟨bz3Loop_success_iff _ _ _, bz3Loop_fail_iff _ _ _⟩

/-- Template set record holding two templates, used as a match gallery
and as an oversized probe. -/
def galRecord : FpPrint :=
  { type := .nbis, driver := "d", device_id := "i", device_stored := false,
    image := none, finger := 0, username := none, description := none,
    enroll_date := none, data := none,
    prints := [⟨0, [], [], []⟩, ⟨5, [], [], []⟩] }

/-- Template set record holding exactly one template, used as a probe. -/
def probeRecord : FpPrint := { galRecord with prints := [⟨7, [], [], []⟩] }

/-- C5 witness: the matching characterization applied at a concrete
gallery of two templates, a concrete single template probe, threshold 3
and the scoring function that returns the row count of the gallery
template. -/
theorem c5_bz3_match_threshold_witness :
    (fpi_print_bz3_match (fun _ => 0) (fun _ _ g => (g.nrows : Int))
        galRecord probeRecord 3 = .success ↔
      ∃ g ∈ galRecord.prints,
        (3 : Int) ≤ (fun _ _ g => (g.nrows : Int))
          ((fun _ => (0 : Int)) probeRecord.prints.headI)
          probeRecord.prints.headI g) ∧
    (fpi_print_bz3_match (fun _ => 0) (fun _ _ g => (g.nrows : Int))
        galRecord probeRecord 3 = .fail ↔
      ∀ g ∈ galRecord.prints,
        (fun _ _ g => (g.nrows : Int))
          ((fun _ => (0 : Int)) probeRecord.prints.headI)
          probeRecord.prints.headI g < 3) :=
  c5_bz3_match_threshold (fun _ => 0) (fun _ _ g => (g.nrows : Int))
    galRecord probeRecord 3 rfl rfl (by decide)

/-- Raw kind record used to show the kind check fires before the probe
size check. -/
def rawRecordA : FpPrint :=
  { type := .raw, driver := "d", device_id := "i", device_stored := false,
    image := none, finger := 0, username := none, description := none,
    enroll_date := none, data := some ⟨[]⟩, prints := [] }

/-- C6 counterexample: with both records of raw kind the probe does not
contain exactly one template, yet the matcher reports the NotSupported
cause, because the kind check fires first; the claim instead requires the
General cause for every probe without exactly one template. -/
theorem c6_general_counterexample :
    rawRecordA.prints.length ≠ 1 ∧
    fpi_print_bz3_match (fun _ => 0) (fun _ _ _ => 0) rawRecordA rawRecordA 0 =
      .error (.devNotSupported "It is only possible to match NBIS type print data") ∧
    ∀ m, fpi_print_bz3_match (fun _ => 0) (fun _ _ _ => 0) rawRecordA rawRecordA 0 ≠
      .error (.devGeneral m) := by
  refine ⟨by decide, by decide, ?_⟩
  intro m h
  rw [show fpi_print_bz3_match (fun _ => 0) (fun _ _ _ => 0) rawRecordA rawRecordA 0 =
      .error (.devNotSupported "It is only possible to match NBIS type print data")
    from by decide] at h
  simp at h

/-- C6 (amended): the matcher reports the NotSupported cause whenever
either record is not of template set kind; it reports the General cause
whenever both records are template sets and the probe does not hold
exactly one template; and in no other case does it return a match error. -/
theorem c6_match_error_cases (probeInit : XytStruct → Int)
    (toGallery : Int → XytStruct → XytStruct → Int)
    (template probe : FpPrint) (thr : Int) :
    ((template.type ≠ .nbis ∨ probe.type ≠ .nbis) →
      fpi_print_bz3_match probeInit toGallery template probe thr =
        .error (.devNotSupported "It is only possible to match NBIS type print data")) ∧
    ((template.type = .nbis ∧ probe.type = .nbis ∧ probe.prints.length ≠ 1) →
      fpi_print_bz3_match probeInit toGallery template probe thr =
        .error (.devGeneral "New print contains more than one print!")) ∧
    (∀ e, fpi_print_bz3_match probeInit toGallery template probe thr = .error e →
      template.type ≠ .nbis ∨ probe.type ≠ .nbis ∨ probe.prints.length ≠ 1) := by
  refine ⟨?_, ?_, ?_⟩
  · intro h
    unfold fpi_print_bz3_match
    rw [if_pos h]
  · rintro ⟨h1, h2, h3⟩
    unfold fpi_print_bz3_match
    rw [if_neg (by simp [h1, h2]), if_pos h3]
  · intro e he
    by_contra hc
    push_neg at hc
    obtain ⟨ha, hb, hlen⟩ := hc
    unfold fpi_print_bz3_match at he
    rw [if_neg (by simp [ha, hb]), if_neg (by simp [hlen])] at he
    exact bz3Loop_ne_error _ _ _ _ he

/-- C6 witness: the three error clauses at concrete inputs: a raw pair
gives NotSupported, a two template probe between template sets gives
General, and the raw pair instance of the exhaustiveness clause. -/
theorem c6_match_error_cases_witness :
    fpi_print_bz3_match (fun _ => 0) (fun _ _ _ => 0) rawRecordA rawRecordA 1 =
      .error (.devNotSupported "It is only possible to match NBIS type print data") ∧
    fpi_print_bz3_match (fun _ => 0) (fun _ _ _ => 0) galRecord galRecord 1 =
      .error (.devGeneral "New print contains more than one print!") ∧
    (rawRecordA.type ≠ .nbis ∨ rawRecordA.type ≠ .nbis ∨
      rawRecordA.prints.length ≠ 1) :=
  ⟨(c6_match_error_cases (fun _ => 0) (fun _ _ _ => 0) rawRecordA rawRecordA 1).1
     (Or.inl (by decide)),
   (c6_match_error_cases (fun _ => 0) (fun _ _ _ => 0) galRecord galRecord 1).2.1
     ⟨rfl, rfl, by decide⟩,
   (c6_match_error_cases (fun _ => 0) (fun _ _ _ => 0) rawRecordA rawRecordA 1).2.2
     (.devNotSupported "It is only possible to match NBIS type print data")
     (by decide)⟩

/-- The 200 entry zero column of a freshly allocated xyt struct. -/
def zeros200 : List Int := List.replicate 200 0

/-- Template with zeroed storage and count 0. -/
def xytZero : XytStruct :=
  { nrows := 0, xcol := zeros200, ycol := zeros200, thetacol := zeros200 }

/-- Template with the same zeroed storage but count 1. -/
def xytZeroOneRow : XytStruct := { xytZero with nrows := 1 }

/-- Template set record around xytZero. -/
def nbisRecA : FpPrint :=
  { type := .nbis, driver := "d", device_id := "i", device_stored := false,
    image := none, finger := 0, username := none, description := none,
    enroll_date := none, data := none, prints := [xytZero] }

/-- Template set record around xytZeroOneRow. -/
def nbisRecB : FpPrint := { nbisRecA with prints := [xytZeroOneRow] }

/-- C7 counterexample: two template set records agreeing on kind, driver,
device id, sequence length and on every one of the 200 slots of each of
the three columns still compare unequal, because the memcmp also covers
the count field, which differs (0 against 1); the stated iff omits the
count and therefore fails. -/
theorem c7_equal_counterexample :
    nbisRecA.type = .nbis ∧ nbisRecB.type = .nbis ∧
    nbisRecA.driver = nbisRecB.driver ∧
    nbisRecA.device_id = nbisRecB.device_id ∧
    nbisRecA.prints.length = nbisRecB.prints.length ∧
    nbisRecA.prints.map XytStruct.xcol = nbisRecB.prints.map XytStruct.xcol ∧
    nbisRecA.prints.map XytStruct.ycol = nbisRecB.prints.map XytStruct.ycol ∧
    nbisRecA.prints.map XytStruct.thetacol =
      nbisRecB.prints.map XytStruct.thetacol ∧
    fp_print_equal nbisRecA nbisRecB = false := by
  refine ⟨rfl, rfl, rfl, rfl, rfl, rfl, rfl, rfl, by decide⟩

/-- C7 (amended): for two template set records, equality holds exactly
when driver, device id and the template sequences agree, where two
templates agree exactly when their whole backing structs are byte
identical: the count field together with all 200 slots of each of the
three columns; and mutating the metadata fields (finger, username,
description, enroll date) on either side never influences the verdict. -/
theorem c7_equal_nbis (a b : FpPrint) (ha : a.type = .nbis) (hb : b.type = .nbis) :
    (fp_print_equal a b = true ↔
      a.driver = b.driver ∧ a.device_id = b.device_id ∧ a.prints = b.prints) ∧
    (∀ fa ua da ea fb ub db eb,
      fp_print_equal (setMetadata a fa ua da ea) (setMetadata b fb ub db eb) =
        fp_print_equal a b) :=
  ⟨equal_nbis_iff a b ha hb,
   fun fa ua da ea fb ub db eb =>
     equal_ignores_metadata a b fa ua da ea fb ub db eb⟩

/-- C7 witness: the characterization applied at the two concrete template
set records. -/
theorem c7_equal_nbis_witness :
    ((fp_print_equal nbisRecA nbisRecB = true ↔
      nbisRecA.driver = nbisRecB.driver ∧
      nbisRecA.device_id = nbisRecB.device_id ∧
      nbisRecA.prints = nbisRecB.prints) ∧
    (∀ fa ua da ea fb ub db eb,
      fp_print_equal (setMetadata nbisRecA fa ua da ea)
          (setMetadata nbisRecB fb ub db eb) =
        fp_print_equal nbisRecA nbisRecB)) :=
  c7_equal_nbis nbisRecA nbisRecB rfl rfl

/-- C8: the encoder retains at most the first 200 minutiae in input order:
the output depends only on the first 200 entries, the stored count is the
capped length, the stored columns are the three projections of one common
reordering of the normalized retained points, and an absent or empty
minutia list fails with the invalid data error. -/
theorem c8_encoder_capacity (p : FpPrint) (img : FpImage) (l : List MinutiaCols)
    (hp : p.type = .nbis) :
    (minutiae_to_xyt l).nrows = min l.length 200 ∧
    minutiae_to_xyt l = minutiae_to_xyt (l.take 200) ∧
    (∃ c, List.Perm c ((l.take (min l.length 200)).map normPoint) ∧
      (minutiae_to_xyt l).xcol =
        c.map MinutiaCols.col0 ++ List.replicate (200 - min l.length 200) 0 ∧
      (minutiae_to_xyt l).ycol =
        c.map MinutiaCols.col1 ++ List.replicate (200 - min l.length 200) 0 ∧
      (minutiae_to_xyt l).thetacol =
        c.map MinutiaCols.col2 ++ List.replicate (200 - min l.length 200) 0) ∧
    (img.minutiae = none →
      fpi_print_add_from_image p (some img) =
        .error (.ioInvalidData "No minutiae found in image or not yet detected!")) ∧
    (img.minutiae = some [] →
      fpi_print_add_from_image p (some img) =
        .error (.ioInvalidData "No minutiae found in image or not yet detected!")) ∧
    (img.minutiae = some l → l ≠ [] →
      fpi_print_add_from_image p (some img) =
        .ok { p with
              prints := p.prints ++ [minutiae_to_xyt l]
              image := some img }) := by
  refine ⟨rfl, ?_, ?_, ?_, ?_, ?_⟩
  · simp only [minutiae_to_xyt]
    have h1 : min (l.take 200).length 200 = min l.length 200 := by
      rw [List.length_take]; omega
    rw [h1]
    have h2 : (l.take 200).take (min l.length 200) = l.take (min l.length 200) := by
      rw [List.take_take]
      congr 1
      omega
    rw [h2]
  · exact ⟨sortXY ((l.take (min l.length 200)).map normPoint),
      sortXY_perm _, rfl, rfl, rfl⟩
  · intro hi
    simp [fpi_print_add_from_image, hp, hi]
  · intro hi
    simp [fpi_print_add_from_image, hp, hi]
  · intro hi hne
    have : l.length ≠ 0 := fun h => hne (List.length_eq_zero.mp h)
    simp [fpi_print_add_from_image, hp, hi, this]

/-- Single transformed minutia for the encoder witnesses. -/
def demoMinutiae : List MinutiaCols := [⟨10, 20, 190, 50⟩]

/-- Image with one detected minutia. -/
def demoImage : FpImage := ⟨some demoMinutiae⟩

/-- Image whose detection returned an empty list. -/
def emptyImage : FpImage := ⟨some []⟩

/-- C8 witness: the count clause and the two encoder outcomes at concrete
inputs: a one minutia image is appended and an empty detection list fails
with invalid data. -/
theorem c8_encoder_capacity_witness :
    (minutiae_to_xyt demoMinutiae).nrows = min demoMinutiae.length 200 ∧
    fpi_print_add_from_image nbisRecA (some demoImage) =
      .ok { nbisRecA with
            prints := nbisRecA.prints ++ [minutiae_to_xyt demoMinutiae]
            image := some demoImage } ∧
    fpi_print_add_from_image nbisRecA (some emptyImage) =
      .error (.ioInvalidData "No minutiae found in image or not yet detected!") :=
  ⟨(c8_encoder_capacity nbisRecA demoImage demoMinutiae rfl).1,
   (c8_encoder_capacity nbisRecA demoImage demoMinutiae rfl).2.2.2.2.2
     rfl (by decide),
   (c8_encoder_capacity nbisRecA emptyImage demoMinutiae rfl).2.2.2.2.1 rfl⟩

/-- C9: the stored orientation is the transformed angle itself when it is
at most 180 degrees and the angle lowered by 360 when above; 190 becomes
minus 170 and 180 stays 180; and when every transformed angle lies in
[0, 360), as the degree convention of the external transform provides,
every significant stored theta lies in the interval (minus 180, 180]. -/
theorem c9_theta_normalization (l : List MinutiaCols)
    (hrange : ∀ m ∈ l, 0 ≤ m.col2 ∧ m.col2 < 360) :
    (∀ t : Int, t ≤ 180 → normTheta t = t) ∧
    (∀ t : Int, 180 < t → normTheta t = t - 360) ∧
    normTheta 190 = -170 ∧
    normTheta 180 = 180 ∧
    (∀ x ∈ (minutiae_to_xyt l).thetacol.take (min l.length 200),
      -180 < x ∧ x ≤ 180) := by
  refine ⟨?_, ?_, by decide, by decide, ?_⟩
  · intro t ht
    unfold normTheta
    rw [if_neg (by omega)]
  · intro t ht
    unfold normTheta
    rw [if_pos (by omega)]
  · intro x hx
    have hlen :
        ((sortXY ((l.take (min l.length 200)).map normPoint)).map
          (fun m => m.col2)).length = min l.length 200 := by
      rw [List.length_map, (sortXY_perm _).length_eq, List.length_map,
        List.length_take]
      omega
    have htake : (minutiae_to_xyt l).thetacol.take (min l.length 200) =
        (sortXY ((l.take (min l.length 200)).map normPoint)).map
          (fun m => m.col2) := by
      simp only [minutiae_to_xyt]
      exact List.take_left' hlen
    rw [htake] at hx
    obtain ⟨m, hm, rfl⟩ := List.mem_map.mp hx
    have hmem : m ∈ (l.take (min l.length 200)).map normPoint :=
      ((sortXY_perm _).mem_iff).mp hm
    obtain ⟨m0, hm0, rfl⟩ := List.mem_map.mp hmem
    have h0 := hrange m0 (List.mem_of_mem_take hm0)
    show -180 < normTheta m0.col2 ∧ normTheta m0.col2 ≤ 180
    unfold normTheta
    split <;> omega

/-- C9 witness: the normalization bounds applied at the concrete one
minutia list, whose transformed angle 190 lies in [0, 360). -/
theorem c9_theta_normalization_witness :
    (∀ t : Int, t ≤ 180 → normTheta t = t) ∧
    (∀ t : Int, 180 < t → normTheta t = t - 360) ∧
    normTheta 190 = -170 ∧
    normTheta 180 = 180 ∧
    (∀ x ∈ (minutiae_to_xyt demoMinutiae).thetacol.take
        (min demoMinutiae.length 200), -180 < x ∧ x ≤ 180) :=
  c9_theta_normalization demoMinutiae (by decide)

/-- C10: storing the private raw data property clears the description
field and leaves every field other than the raw data unchanged. -/
theorem c10_set_fpi_data_frame (p : FpPrint) (v : Option GVariantValue) :
    (fp_print_set_fpi_data p v).data = v ∧
    (fp_print_set_fpi_data p v).description = none ∧
    (fp_print_set_fpi_data p v).type = p.type ∧
    (fp_print_set_fpi_data p v).driver = p.driver ∧
    (fp_print_set_fpi_data p v).device_id = p.device_id ∧
    (fp_print_set_fpi_data p v).device_stored = p.device_stored ∧
    (fp_print_set_fpi_data p v).image = p.image ∧
    (fp_print_set_fpi_data p v).finger = p.finger ∧
    (fp_print_set_fpi_data p v).username = p.username ∧
    (fp_print_set_fpi_data p v).enroll_date = p.enroll_date ∧
    (fp_print_set_fpi_data p v).prints = p.prints :=
  ⟨rfl, rfl, rfl, rfl, rfl, rfl, rfl, rfl, rfl, rfl, rfl⟩

end Fprint
